import Mathlib

/-
Verification of the SparklingHome cleaning-booking service.

The embedding below follows the TypeScript sources:
  * CleaningBookingService.getAllPaidBooking / updateBooking / getTopBookingUsers
    (cleaning-booking.service.ts)
  * CleaningBookingRepository.getTotalBookingEarnings / findTopUsersByBooking
    (cleaning-booking.repository.ts)

The booking store is modelled as a list of booking documents; the generic
repository primitives (count / getAll / getOneWhere / updateOneById) are not in
the provided sources and are modelled from the spec's Booking Store contract.
JavaScript truthiness tests on patch fields (`if (dto.x)`) are modelled
explicitly: a string field is truthy when present and non-empty, a numeric
field when present and non-zero, a boolean field when present and true.
Monetary amounts are rationals; `Math.ceil` is `Int.ceil`.
-/

set_option autoImplicit false

namespace SparklingHome

/-- CleaningBookingStatusEnum (delivery lifecycle of a booking). -/
inductive CleaningBookingStatusEnum where
  | BookingInitiated
  | BookingServed
  | BookingCompleted
  | BookingCancelled
deriving DecidableEq, Repr

/-- CleaningBookingPaymentStatusEnum (financial lifecycle of a booking). -/
inductive CleaningBookingPaymentStatusEnum where
  | PaymentPending
  | PaymentCompleted
  | PaymentFailed
deriving DecidableEq, Repr

/-- ApplicationUserRoleEnum: the service only distinguishes ADMIN from the rest. -/
inductive ApplicationUserRoleEnum where
  | ADMIN
  | USER
deriving DecidableEq, Repr

/-- A booking document of the Booking Store.  `bookingUser` is the id of the
owning user; `bookingUserEmail` is the email of that user as obtained when the
lookup populates the `bookingUser` reference (the service only reads `.email`
from the populated document). -/
structure Booking where
  id : String
  bookingUser : String
  bookingUserEmail : String
  cleaningDate : String
  remarks : String
  cleaningPrice : ℚ
  suppliesCharges : ℚ
  discountAmount : ℚ
  additionalCharges : ℚ
  totalAmount : ℚ
  bookingStatus : CleaningBookingStatusEnum
  paymentStatus : CleaningBookingPaymentStatusEnum
  isActive : Bool
  createdAt : ℤ
  updatedAt : ℤ
  updatedBy : String
deriving DecidableEq, Repr

/-- An application-user document (the fields relevant to the aggregation
pipelines and the populated booking user). -/
structure ApplicationUser where
  id : String
  email : String
  fullName : String
  profilePicture : String
  dateJoined : ℤ
  isActive : Bool
deriving DecidableEq, Repr

/-- UpdateCleaningBookingDto: the recognized patch fields.  A field is `none`
when the key is absent from the request body. -/
structure UpdateCleaningBookingDto where
  cleaningDate : Option String := none
  remarks : Option String := none
  additionalCharges : Option ℚ := none
  markAsServed : Option Bool := none
deriving DecidableEq, Repr

/-- Object.keys(dto).length: the number of keys present in the patch. -/
def UpdateCleaningBookingDto.numKeys (dto : UpdateCleaningBookingDto) : Nat :=
  (if dto.cleaningDate.isSome then 1 else 0) +
  (if dto.remarks.isSome then 1 else 0) +
  (if dto.additionalCharges.isSome then 1 else 0) +
  (if dto.markAsServed.isSome then 1 else 0)

/-- JavaScript truthiness of an optional string field: present and non-empty. -/
def truthyStr : Option String → Bool
  | some s => decide (s ≠ "")
  | none => false

/-- JavaScript truthiness of an optional numeric field: present and non-zero. -/
def truthyNum : Option ℚ → Bool
  | some q => decide (q ≠ 0)
  | none => false

/-- JavaScript truthiness of an optional boolean field: present and true. -/
def truthyBool : Option Bool → Bool
  | some b => b
  | none => false

/-- ListCleaningBookingQueryDto with its default values. -/
structure ListCleaningBookingQueryDto where
  Page : Nat := 1
  PageSize : Nat := 10
  BookingUserId : String := ""
deriving DecidableEq, Repr

/-- ITokenPayload: the authenticated caller's identity. -/
structure ITokenPayload where
  userId : String
  userRole : ApplicationUserRoleEnum
deriving DecidableEq, Repr

/-- PaginatedResponseDto envelope. -/
structure PaginatedResponse where
  totalRecords : Nat
  page : Nat
  pageSize : Nat
  data : List Booking
deriving DecidableEq, Repr

/-- Emails dispatched through the EmailService. -/
inductive EmailEvent where
  | bookingServedMail (email : String)
  | bookingConfirmedMail (email : String) (date : String)
deriving DecidableEq, Repr

/-- Recognizer for the booking-served mail. -/
def EmailEvent.isServedMail : EmailEvent → Bool
  | .bookingServedMail _ => true
  | .bookingConfirmedMail _ _ => false

/-- The store primitives invoked by updateBooking, recorded as a trace. -/
inductive StoreOp where
  | getOneWhere (bookingId : String)
  | updateOneById (id : String)
deriving DecidableEq, Repr

/-- The guarded-lookup filter of updateBooking:
`{_id: bookingId, isActive: true, bookingStatus: {$nin: [Cancelled, Completed]},
paymentStatus: {$ne: PaymentCompleted}}`. -/
def eligibleBookingFilter (bookingId : String) (b : Booking) : Bool :=
  b.id == bookingId && b.isActive &&
  !(b.bookingStatus == .BookingCancelled || b.bookingStatus == .BookingCompleted) &&
  !(b.paymentStatus == .PaymentCompleted)

/-- Modelled from the spec: the Booking Store contract `getOneWhere(filter,
{populate})` (generic-repository source not provided) returns the record
matching the filter, or nothing. -/
def getOneWhere (store : List Booking) (p : Booking → Bool) : Option Booking :=
  store.find? p

/-- The update document (`UpdateQuery<CleaningBookingDocument>`) built by
updateBooking.  A field is `some` exactly when the corresponding assignment
in the source executed. -/
structure UpdateQueryRec where
  updatedBy : String
  updatedAt : ℤ
  cleaningDate : Option String := none
  remarks : Option String := none
  additionalCharges : Option ℚ := none
  totalAmount : Option ℚ := none
  bookingStatus : Option CleaningBookingStatusEnum := none
deriving DecidableEq, Repr

/-- Applying an update document to a booking document: each field present in
the update replaces the stored one. -/
def applyUpdateQuery (b : Booking) (q : UpdateQueryRec) : Booking :=
  { b with
    updatedBy := q.updatedBy
    updatedAt := q.updatedAt
    cleaningDate := q.cleaningDate.getD b.cleaningDate
    remarks := q.remarks.getD b.remarks
    additionalCharges := q.additionalCharges.getD b.additionalCharges
    totalAmount := q.totalAmount.getD b.totalAmount
    bookingStatus := q.bookingStatus.getD b.bookingStatus }

/-- Modelled from the spec: the Booking Store contract `updateOneById(id,
patch)` (generic-repository source not provided) applies the update document
to the single document with the given id. -/
def updateOneById (store : List Booking) (id : String) (q : UpdateQueryRec) :
    List Booking :=
  match store with
  | [] => []
  | b :: rest =>
      if b.id == id then applyUpdateQuery b q :: rest
      else b :: updateOneById rest id q

/-- The update document accumulated by updateBooking before the markAsServed
branch: `updatedBy`/`updatedAt` always, then each truthy patch field;
`additionalCharges` also recomputes
`totalAmount = Math.ceil(cleaningPrice + additionalCharges + suppliesCharges - discountAmount)`
from the looked-up booking's stored price components. -/
def buildUpdateQuery (currentBooking : Booking) (dto : UpdateCleaningBookingDto)
    (authUserId : String) (now : ℤ) : UpdateQueryRec :=
  { updatedBy := authUserId
    updatedAt := now
    cleaningDate := if truthyStr dto.cleaningDate then dto.cleaningDate else none
    remarks := if truthyStr dto.remarks then dto.remarks else none
    additionalCharges :=
      if truthyNum dto.additionalCharges then dto.additionalCharges else none
    totalAmount :=
      if truthyNum dto.additionalCharges then
        some ((Int.ceil (currentBooking.cleaningPrice +
          dto.additionalCharges.getD 0 + currentBooking.suppliesCharges -
          currentBooking.discountAmount) : ℤ) : ℚ)
      else none
    bookingStatus := none }

/-- Decidable equality of response values. -/
instance {ε α : Type} [DecidableEq ε] [DecidableEq α] : DecidableEq (Except ε α) :=
  fun x y =>
    match x, y with
    | Except.error a, Except.error b =>
        if h : a = b then isTrue (by rw [h])
        else isFalse (by intro hc; cases hc; exact h rfl)
    | Except.error _, Except.ok _ => isFalse (by intro h; cases h)
    | Except.ok _, Except.error _ => isFalse (by intro h; cases h)
    | Except.ok a, Except.ok b =>
        if h : a = b then isTrue (by rw [h])
        else isFalse (by intro hc; cases hc; exact h rfl)

/-- The outcome of one updateBooking call: the HTTP-level response (error
message, or the updated booking wrapped in the success envelope), the store
after the call, the emails dispatched, and the trace of store primitives
invoked. -/
structure UpdateBookingResult where
  response : Except String Booking
  store : List Booking
  emails : List EmailEvent
  ops : List StoreOp
deriving DecidableEq, Repr

/-- Everything updateBooking does after its guarded lookup succeeded, run
against the store state `storeAtCommit`: the markAsServed transition guard,
the write through `updateOneById`, and the post-commit emails.  In the
sequential service `storeAtCommit` is the same state the lookup read;
keeping it a parameter exposes the window between the read and the write. -/
def commitPhase (storeAtCommit : List Booking) (currentBooking : Booking)
    (dto : UpdateCleaningBookingDto) (authUserId : String) (now : ℤ) :
    UpdateBookingResult :=
  if truthyBool dto.markAsServed &&
      !(currentBooking.bookingStatus == .BookingInitiated) then
    { response := Except.error "Booking status is not eligible for update"
      store := storeAtCommit
      emails := []
      ops := [] }
  else
    let q0 := buildUpdateQuery currentBooking dto authUserId now
    let q := if truthyBool dto.markAsServed then
        { q0 with bookingStatus := some .BookingServed } else q0
    let newStore := updateOneById storeAtCommit currentBooking.id q
    let updatedBooking := applyUpdateQuery currentBooking q
    let servedMails := if truthyBool dto.markAsServed then
        [EmailEvent.bookingServedMail currentBooking.bookingUserEmail] else []
    let confirmedMails := if truthyStr dto.cleaningDate then
        [EmailEvent.bookingConfirmedMail currentBooking.bookingUserEmail
          updatedBooking.cleaningDate] else []
    { response := Except.ok updatedBooking
      store := newStore
      emails := servedMails ++ confirmedMails
      ops := [StoreOp.updateOneById currentBooking.id] }

/-- CleaningBookingService.updateBooking(bookingId, bookingUpdateDto,
authUserId): reject an empty patch, look up the booking through the
eligibility filter, fail when none matches, otherwise build the update
document and commit it, sending the post-commit emails. -/
def updateBooking (store : List Booking) (bookingId : String)
    (dto : UpdateCleaningBookingDto) (authUserId : String) (now : ℤ) :
    UpdateBookingResult :=
  if dto.numKeys < 1 then
    { response := Except.error "No fields to update"
      store := store, emails := [], ops := [] }
  else
    match getOneWhere store (eligibleBookingFilter bookingId) with
    | none =>
        { response := Except.error ("No active booking found with id: " ++ bookingId)
          store := store, emails := []
          ops := [StoreOp.getOneWhere bookingId] }
    | some currentBooking =>
        let r := commitPhase store currentBooking dto authUserId now
        { r with ops := StoreOp.getOneWhere bookingId :: r.ops }

/-- updateBooking with an interleaved writer: `interference` is applied to the
store between the service's lookup and its commit, modelling a concurrent
caller (for instance the webhook handler) that writes after the eligibility
check was performed but before `updateOneById` runs. -/
def updateBookingInterleaved (store : List Booking)
    (interference : List Booking → List Booking) (bookingId : String)
    (dto : UpdateCleaningBookingDto) (authUserId : String) (now : ℤ) :
    UpdateBookingResult :=
  if dto.numKeys < 1 then
    { response := Except.error "No fields to update"
      store := store, emails := [], ops := [] }
  else
    match getOneWhere store (eligibleBookingFilter bookingId) with
    | none =>
        { response := Except.error ("No active booking found with id: " ++ bookingId)
          store := store, emails := []
          ops := [StoreOp.getOneWhere bookingId] }
    | some currentBooking =>
        let r := commitPhase (interference store) currentBooking dto authUserId now
        { r with ops := StoreOp.getOneWhere bookingId :: r.ops }

/-- The reporting filter: `bookingStatus = BookingCompleted` and
`paymentStatus = PaymentCompleted`. -/
def completedPaidFilter (b : Booking) : Bool :=
  b.bookingStatus == .BookingCompleted && b.paymentStatus == .PaymentCompleted

/-- Search filter of getAllPaidBooking: the completed/paid match plus the
optional owning-user constraint. -/
def paidBookingMatches (owner : Option String) (b : Booking) : Bool :=
  completedPaidFilter b &&
  (match owner with
   | some uid => b.bookingUser == uid
   | none => true)

/-- CleaningBookingService.getAllPaidBooking: a non-admin caller is always
restricted to their own bookings; an admin may restrict by the BookingUserId
query value when it is truthy.  `count` and `getAll(limit, skip)` are
modelled from the spec's Booking Store contract as filtering plus
drop/take pagination. -/
def getAllPaidBooking (store : List Booking)
    (query : ListCleaningBookingQueryDto) (token : ITokenPayload) :
    PaginatedResponse :=
  let owner : Option String :=
    if token.userRole ≠ ApplicationUserRoleEnum.ADMIN then some token.userId
    else if query.BookingUserId ≠ "" then some query.BookingUserId
    else none
  let matched := store.filter (paidBookingMatches owner)
  let skip := (query.Page - 1) * query.PageSize
  { totalRecords := matched.length
    page := query.Page
    pageSize := query.PageSize
    data := (matched.drop skip).take query.PageSize }

/-- Decidability of the createdAt descending comparison used by the earnings
pipeline's `.sort` stage. -/
instance : DecidableRel (fun a b : Booking => b.createdAt ≤ a.createdAt) :=
  fun a b => Int.decLe b.createdAt a.createdAt

/-- CleaningBookingRepository.getTotalBookingEarnings: sort by createdAt
descending, match completed/paid, group summing totalAmount (an empty
aggregation result yields 0, as does the sum over the empty list). -/
def getTotalBookingEarnings (store : List Booking) : ℚ :=
  let sortedStore := List.insertionSort (fun a b => b.createdAt ≤ a.createdAt) store
  let matched := sortedStore.filter completedPaidFilter
  (matched.map Booking.totalAmount).sum

/-- The document produced for a booking's owner by the `$lookup` pipeline's
`$project` stage: `$project {email: 1, fullName: 1, profilePicture: 1,
dateJoined: 1}` keeps the projected fields and, by MongoDB default, `_id`. -/
structure BookingUserProjection where
  id : String
  email : String
  fullName : String
  profilePicture : String
  dateJoined : ℤ
deriving DecidableEq, Repr

/-- Projection applied inside the `$lookup` sub-pipeline. -/
def projectBookingUser (u : ApplicationUser) : BookingUserProjection :=
  { id := u.id
    email := u.email
    fullName := u.fullName
    profilePicture := u.profilePicture
    dateJoined := u.dateJoined }

/-- The `$lookup` stage of findTopUsersByBooking for one booking: the user
documents with `isActive: true` whose `_id` (as string) equals the booking's
`bookingUser`, each projected. -/
def lookupActiveBookingUser (users : List ApplicationUser) (b : Booking) :
    List BookingUserProjection :=
  (users.filter (fun u => u.isActive && u.id == b.bookingUser)).map
    projectBookingUser

/-- One entry of the top-users report, after the final `$project`. -/
structure TopBookingUserEntry where
  bookingUser : BookingUserProjection
  totalBookingCount : Nat
deriving DecidableEq, Repr

/-- Duplicate removal keeping the first occurrence, modelling the distinct
`$group` keys of an aggregation. -/
def dedupFirst {α : Type} [DecidableEq α] : List α → List α
  | [] => []
  | a :: rest => a :: (dedupFirst rest).filter (fun x => decide (x ≠ a))

/-- Decidability of the totalBookingCount descending comparison used by the
top-users pipeline's `.sort` stage. -/
instance : DecidableRel
    (fun a b : BookingUserProjection × Nat => b.2 ≤ a.2) :=
  fun a b => Nat.decLe b.2 a.2

/-- A booking owner that exists in the user collection and is active: exactly
the condition under which the `$lookup` sub-pipeline is non-empty. -/
def hasActiveOwner (users : List ApplicationUser) (b : Booking) : Bool :=
  users.any (fun u => u.isActive && u.id == b.bookingUser)

/-- Totality of the count-descending comparison. -/
instance : IsTotal (BookingUserProjection × Nat)
    (fun a b => b.2 ≤ a.2) :=
  ⟨fun a b => Nat.le_total b.2 a.2⟩

/-- Transitivity of the count-descending comparison. -/
instance : IsTrans (BookingUserProjection × Nat)
    (fun a b => b.2 ≤ a.2) :=
  ⟨fun _ _ _ hab hbc => Nat.le_trans hbc hab⟩

/-- CleaningBookingRepository.findTopUsersByBooking: match completed/paid
bookings, look up each booking's active owner, unwind, group by the projected
owner counting bookings, sort by count descending, limit 10, and project to
`{bookingUser, totalBookingCount}` entries. -/
def findTopUsersByBooking (bookings : List Booking)
    (users : List ApplicationUser) : List TopBookingUserEntry :=
  let matched := bookings.filter completedPaidFilter
  let unwound := matched.flatMap (lookupActiveBookingUser users)
  let grouped := (dedupFirst unwound).map (fun k => (k, unwound.count k))
  let sorted := List.insertionSort
    (fun a b : BookingUserProjection × Nat => b.2 ≤ a.2) grouped
  (sorted.take 10).map (fun kc =>
    { bookingUser := kc.1, totalBookingCount := kc.2 })

/-- Recognizer for a success response (HTTP 200 with the success envelope). -/
def responseIsOk : Except String Booking → Bool
  | Except.ok _ => true
  | Except.error _ => false

/-! Concrete documents used in counterexamples and witnesses. -/

/-- A booking that is eligible for mutation (active, Initiated, payment
pending), with `totalAmount = 125` reflecting previously applied
`additionalCharges = 20`. -/
def exBooking : Booking :=
  { id := "B1", bookingUser := "U1", bookingUserEmail := "u1@mail"
    cleaningDate := "2024-01-01", remarks := "old"
    cleaningPrice := 100, suppliesCharges := 10, discountAmount := 5
    additionalCharges := 20, totalAmount := 125
    bookingStatus := .BookingInitiated, paymentStatus := .PaymentPending
    isActive := true, createdAt := 0, updatedAt := 0, updatedBy := "" }

/-- The same booking after its payment completed. -/
def exBookingPaid : Booking :=
  { exBooking with paymentStatus := .PaymentCompleted }

/-- The same booking after it was served. -/
def exBookingServed : Booking :=
  { exBooking with bookingStatus := .BookingServed }

/-- An interleaved writer that completes payment and delivery of booking B1,
as the webhook handler does on a confirmed payment. -/
def exInterference (s : List Booking) : List Booking :=
  s.map (fun b =>
    if b.id == "B1" then
      { b with paymentStatus := .PaymentCompleted,
               bookingStatus := .BookingCompleted }
    else b)

/-- An application user owning the example bookings. -/
def exUser : ApplicationUser :=
  { id := "U1", email := "u1@mail", fullName := "User One"
    profilePicture := "pic1", dateJoined := 0, isActive := true }

/-- A second application user. -/
def exUser2 : ApplicationUser :=
  { id := "U2", email := "u2@mail", fullName := "User Two"
    profilePicture := "pic2", dateJoined := 0, isActive := true }

/-- A completed and paid booking owned by the given user. -/
def exCompletedBooking (bid uid : String) : Booking :=
  { id := bid, bookingUser := uid, bookingUserEmail := uid ++ "@mail"
    cleaningDate := "2024-01-01", remarks := ""
    cleaningPrice := 100, suppliesCharges := 0, discountAmount := 0
    additionalCharges := 0, totalAmount := 100
    bookingStatus := .BookingCompleted, paymentStatus := .PaymentCompleted
    isActive := true, createdAt := 0, updatedAt := 0, updatedBy := "" }

/-! General helper lemmas about the store model. -/

theorem find?_cons_eq_ite {α : Type} {p : α → Bool} {a : α} {l : List α} :
    (a :: l).find? p = if p a = true then some a else l.find? p := by
  rw [List.find?_cons]
  cases p a <;> simp

theorem find?_eq_some_of_unique {α : Type} {p : α → Bool} {l : List α} {b : α}
    (hb : b ∈ l) (hpb : p b = true) (huniq : ∀ x ∈ l, p x = true → x = b) :
    l.find? p = some b := by
  induction l with
  | nil => cases hb
  | cons a rest ih =>
      rcases List.mem_cons.mp hb with rfl | hbr
      · rw [List.find?_cons_of_pos _ hpb]
      · cases hpa : p a with
        | true =>
            have ha : a = b := huniq a (List.mem_cons_self a rest) hpa
            rw [List.find?_cons_of_pos _ hpa, ha]
        | false =>
            rw [List.find?_cons_of_neg _ (by simp [hpa])]
            exact ih hbr (fun x hx hpx => huniq x (List.mem_cons_of_mem _ hx) hpx)

theorem booking_eq_of_id_eq {store : List Booking}
    (hnd : (store.map Booking.id).Nodup) {x b : Booking}
    (hx : x ∈ store) (hb : b ∈ store) (h : x.id = b.id) : x = b :=
  List.inj_on_of_nodup_map hnd hx hb h

theorem eligibleBookingFilter_eq_true {bookingId : String} {b : Booking} :
    eligibleBookingFilter bookingId b = true ↔
      b.id = bookingId ∧ b.isActive = true ∧
      b.bookingStatus ≠ .BookingCancelled ∧ b.bookingStatus ≠ .BookingCompleted ∧
      b.paymentStatus ≠ .PaymentCompleted := by
  simp only [eligibleBookingFilter, Bool.and_eq_true, Bool.not_eq_true',
    Bool.or_eq_false_iff, beq_iff_eq, beq_eq_false_iff_ne, ne_eq]
  tauto

theorem applyUpdateQuery_id (b : Booking) (q : UpdateQueryRec) :
    (applyUpdateQuery b q).id = b.id := rfl

theorem updateOneById_cons (a : Booking) (rest : List Booking) (id : String)
    (q : UpdateQueryRec) :
    updateOneById (a :: rest) id q =
      if (a.id == id) = true then applyUpdateQuery a q :: rest
      else a :: updateOneById rest id q := by
  simp only [updateOneById]

theorem updateOneById_find?_self {store : List Booking} {id : String}
    {b : Booking} (q : UpdateQueryRec)
    (h : store.find? (fun x => x.id == id) = some b) :
    (updateOneById store id q).find? (fun x => x.id == id) =
      some (applyUpdateQuery b q) := by
  induction store with
  | nil => simp at h
  | cons a rest ih =>
      cases hpa : (a.id == id) with
      | true =>
          rw [find?_cons_eq_ite, if_pos hpa] at h
          cases h
          rw [updateOneById_cons, if_pos hpa, find?_cons_eq_ite,
            if_pos (by rw [applyUpdateQuery_id]; exact hpa)]
      | false =>
          rw [find?_cons_eq_ite, if_neg (by simp [hpa])] at h
          rw [updateOneById_cons, if_neg (by simp [hpa]), find?_cons_eq_ite,
            if_neg (by simp [hpa])]
          exact ih h

theorem updateOneById_find?_other {store : List Booking} {id tid : String}
    (q : UpdateQueryRec) (hne : tid ≠ id) :
    (updateOneById store id q).find? (fun x => x.id == tid) =
      store.find? (fun x => x.id == tid) := by
  induction store with
  | nil => rfl
  | cons a rest ih =>
      cases hpa : (a.id == id) with
      | true =>
          have haid : a.id = id := by simpa using hpa
          have hat : (a.id == tid) = false := by
            simp only [beq_eq_false_iff_ne, ne_eq, haid]
            exact fun h => hne h.symm
          rw [updateOneById_cons, if_pos hpa, find?_cons_eq_ite,
            if_neg (by rw [applyUpdateQuery_id]; simp [hat]),
            find?_cons_eq_ite, if_neg (by simp [hat])]
      | false =>
          rw [updateOneById_cons, if_neg (by simp [hpa])]
          cases hat : (a.id == tid) with
          | true =>
              rw [find?_cons_eq_ite, if_pos hat, find?_cons_eq_ite, if_pos hat]
          | false =>
              rw [find?_cons_eq_ite, if_neg (by simp [hat]),
                find?_cons_eq_ite, if_neg (by simp [hat])]
              exact ih

theorem numKeys_pos_of_isSome {dto : UpdateCleaningBookingDto}
    (h : dto.cleaningDate.isSome = true ∨ dto.remarks.isSome = true ∨
      dto.additionalCharges.isSome = true ∨ dto.markAsServed.isSome = true) :
    1 ≤ dto.numKeys := by
  rcases dto with ⟨cd, rm, ac, ms⟩
  cases cd <;> cases rm <;> cases ac <;> cases ms <;>
    simp_all [UpdateCleaningBookingDto.numKeys]

theorem updateBooking_found {store : List Booking} {bookingId : String}
    {dto : UpdateCleaningBookingDto} {authUserId : String} {now : ℤ} {b : Booking}
    (hk : 1 ≤ dto.numKeys)
    (hfind : store.find? (eligibleBookingFilter bookingId) = some b) :
    updateBooking store bookingId dto authUserId now =
      { commitPhase store b dto authUserId now with
        ops := StoreOp.getOneWhere bookingId ::
          (commitPhase store b dto authUserId now).ops } := by
  unfold updateBooking getOneWhere
  rw [if_neg (by omega), hfind]

theorem updateBooking_notFound {store : List Booking} {bookingId : String}
    {dto : UpdateCleaningBookingDto} {authUserId : String} {now : ℤ}
    (hk : 1 ≤ dto.numKeys)
    (hfind : store.find? (eligibleBookingFilter bookingId) = none) :
    updateBooking store bookingId dto authUserId now =
      { response := Except.error ("No active booking found with id: " ++ bookingId)
        store := store, emails := [], ops := [StoreOp.getOneWhere bookingId] } := by
  unfold updateBooking getOneWhere
  rw [if_neg (by omega), hfind]

theorem commitPhase_guard {storeAtCommit : List Booking} {b : Booking}
    {dto : UpdateCleaningBookingDto} {authUserId : String} {now : ℤ}
    (hms : truthyBool dto.markAsServed = true)
    (hst : b.bookingStatus ≠ .BookingInitiated) :
    commitPhase storeAtCommit b dto authUserId now =
      { response := Except.error "Booking status is not eligible for update"
        store := storeAtCommit, emails := [], ops := [] } := by
  unfold commitPhase
  rw [if_pos]
  simp [hms, hst]

theorem commitPhase_commit {storeAtCommit : List Booking} {b : Booking}
    {dto : UpdateCleaningBookingDto} {authUserId : String} {now : ℤ}
    (h : truthyBool dto.markAsServed = false ∨ b.bookingStatus = .BookingInitiated) :
    commitPhase storeAtCommit b dto authUserId now =
      (let q := if truthyBool dto.markAsServed then
          { buildUpdateQuery b dto authUserId now with
            bookingStatus := some .BookingServed }
        else buildUpdateQuery b dto authUserId now
      { response := Except.ok (applyUpdateQuery b q)
        store := updateOneById storeAtCommit b.id q
        emails :=
          (if truthyBool dto.markAsServed then
            [EmailEvent.bookingServedMail b.bookingUserEmail] else []) ++
          (if truthyStr dto.cleaningDate then
            [EmailEvent.bookingConfirmedMail b.bookingUserEmail
              (applyUpdateQuery b q).cleaningDate] else [])
        ops := [StoreOp.updateOneById b.id] }) := by
  unfold commitPhase
  rw [if_neg]
  rcases h with h | h <;> simp [h]

theorem find?_eligible_eq_some {store : List Booking} {bookingId : String}
    {b : Booking} (hnd : (store.map Booking.id).Nodup) (hb : b ∈ store)
    (hid : b.id = bookingId) (hact : b.isActive = true)
    (hnc : b.bookingStatus ≠ .BookingCancelled)
    (hncmp : b.bookingStatus ≠ .BookingCompleted)
    (hnp : b.paymentStatus ≠ .PaymentCompleted) :
    store.find? (eligibleBookingFilter bookingId) = some b :=
  find?_eq_some_of_unique hb
    (eligibleBookingFilter_eq_true.mpr ⟨hid, hact, hnc, hncmp, hnp⟩)
    (fun _x hx hpx => booking_eq_of_id_eq hnd hx hb
      ((eligibleBookingFilter_eq_true.mp hpx).1.trans hid.symm))

theorem find?_id_self {store : List Booking} {b : Booking}
    (hnd : (store.map Booking.id).Nodup) (hb : b ∈ store) :
    store.find? (fun x => x.id == b.id) = some b :=
  find?_eq_some_of_unique hb (by simp)
    (fun x hx hpx => booking_eq_of_id_eq hnd hx hb (by simpa using hpx))

/-! Claim theorems. -/

/-- Claim C6: updateBooking called with an empty patch (no fields present)
fails with the ValidationError "No fields to update" and performs no store
lookup or write (empty operation trace, store unchanged, no emails); a patch
passes the emptiness check exactly when at least one of the recognized fields
cleaningDate, remarks, additionalCharges, markAsServed is present, and any
such patch reaches the store lookup. -/
theorem updateBooking_empty_patch_rejected (store : List Booking)
    (bookingId : String) (dto : UpdateCleaningBookingDto)
    (authUserId : String) (now : ℤ) :
    (dto.numKeys = 0 →
      updateBooking store bookingId dto authUserId now =
        { response := Except.error "No fields to update", store := store,
          emails := [], ops := [] })
    ∧ (dto.numKeys = 0 ↔
        dto.cleaningDate = none ∧ dto.remarks = none ∧
        dto.additionalCharges = none ∧ dto.markAsServed = none)
    ∧ (1 ≤ dto.numKeys →
        ∃ rest, (updateBooking store bookingId dto authUserId now).ops =
          StoreOp.getOneWhere bookingId :: rest) := by
  refine ⟨fun h0 => ?_, ?_, fun h1 => ?_⟩
  · unfold updateBooking
    rw [if_pos (by omega)]
  · rcases dto with ⟨cd, rm, ac, ms⟩
    cases cd <;> cases rm <;> cases ac <;> cases ms <;>
      simp [UpdateCleaningBookingDto.numKeys]
  · cases hfind : store.find? (eligibleBookingFilter bookingId) with
    | none => exact ⟨[], by rw [updateBooking_notFound h1 hfind]⟩
    | some cur =>
        exact ⟨(commitPhase store cur dto authUserId now).ops,
          by rw [updateBooking_found h1 hfind]⟩

/-- Witness for C6 at a concrete input: the empty patch is rejected without
touching the store. -/
theorem updateBooking_empty_patch_rejected_witness :
    updateBooking [exBooking] "B1" {} "admin" 0 =
      { response := Except.error "No fields to update", store := [exBooking],
        emails := [], ops := [] } :=
  (updateBooking_empty_patch_rejected [exBooking] "B1" {} "admin" 0).1 rfl

/-- Claim C1 (amended): for every booking that is ineligible for mutation and
every NON-EMPTY patch and actor, updateBooking fails with the NotEligibleError
"No active booking found with id: " followed by the booking id (so the message
contains the id), the store is unchanged and no email is sent; moreover, for a
booking whose paymentStatus is Completed, no edit-path call whatsoever (any
booking id, any patch, empty or not) changes the stored booking.  The empty
patch instead fails earlier with the ValidationError. -/
theorem updateBooking_ineligible_rejected (store : List Booking)
    (bookingId : String) (dto : UpdateCleaningBookingDto)
    (authUserId : String) (now : ℤ) (b : Booking)
    (hnd : (store.map Booking.id).Nodup) (hb : b ∈ store) (hid : b.id = bookingId)
    (hinelig : b.isActive = false ∨ b.bookingStatus = .BookingCancelled ∨
      b.bookingStatus = .BookingCompleted ∨ b.paymentStatus = .PaymentCompleted)
    (hk : 1 ≤ dto.numKeys) :
    (updateBooking store bookingId dto authUserId now =
      { response := Except.error ("No active booking found with id: " ++ bookingId)
        store := store, emails := [], ops := [StoreOp.getOneWhere bookingId] })
    ∧ (∃ pre post : String,
        "No active booking found with id: " ++ bookingId = pre ++ bookingId ++ post)
    ∧ (b.paymentStatus = .PaymentCompleted →
        ∀ (bookingId' : String) (dto' : UpdateCleaningBookingDto)
          (authUserId' : String) (now' : ℤ),
          (updateBooking store bookingId' dto' authUserId' now').store.find?
            (fun x => x.id == b.id) = some b) := by
  have hnone : store.find? (eligibleBookingFilter bookingId) = none := by
    rw [List.find?_eq_none]
    intro x hx hpx
    rcases eligibleBookingFilter_eq_true.mp hpx with ⟨hxid, hact, hnc, hncmp, hnp⟩
    have hxb : x = b := booking_eq_of_id_eq hnd hx hb (hxid.trans hid.symm)
    subst hxb
    rcases hinelig with h | h | h | h
    · rw [hact] at h; cases h
    · exact hnc h
    · exact hncmp h
    · exact hnp h
  have hself : store.find? (fun x => x.id == b.id) = some b :=
    find?_eq_some_of_unique hb (by simp)
      (fun x hx hpx => booking_eq_of_id_eq hnd hx hb (by simpa using hpx))
  refine ⟨updateBooking_notFound hk hnone,
    ⟨"No active booking found with id: ", "", by simp⟩,
    fun hpc bookingId' dto' authUserId' now' => ?_⟩
  by_cases hdk : dto'.numKeys < 1
  · unfold updateBooking
    rw [if_pos hdk]
    exact hself
  · cases hfind : store.find? (eligibleBookingFilter bookingId') with
    | none =>
        rw [updateBooking_notFound (by omega) hfind]
        exact hself
    | some cur =>
        have hcurmem : cur ∈ store := List.mem_of_find?_eq_some hfind
        rcases eligibleBookingFilter_eq_true.mp (List.find?_some hfind) with
          ⟨hcurid, _, _, _, hcurp⟩
        have hcurne : b.id ≠ cur.id := by
          intro h
          have : cur = b := booking_eq_of_id_eq hnd hcurmem hb h.symm
          rw [this, hpc] at hcurp
          exact hcurp rfl
        rw [updateBooking_found (by omega) hfind]
        by_cases hg : (truthyBool dto'.markAsServed &&
            !(cur.bookingStatus == CleaningBookingStatusEnum.BookingInitiated)) = true
        · have hand := hg
          simp only [Bool.and_eq_true, Bool.not_eq_true', beq_eq_false_iff_ne,
            ne_eq] at hand
          rw [commitPhase_guard hand.1 hand.2]
          exact hself
        · have hsplit : truthyBool dto'.markAsServed = false ∨
              cur.bookingStatus = .BookingInitiated := by
            by_cases hA : truthyBool dto'.markAsServed = true
            · by_cases hs : cur.bookingStatus = CleaningBookingStatusEnum.BookingInitiated
              · exact Or.inr hs
              · exact absurd (by simp [hA, hs]) hg
            · exact Or.inl (by simpa using hA)
          rw [commitPhase_commit hsplit]
          exact (updateOneById_find?_other _ hcurne).trans hself

/-- Counterexample for C1 as stated: for the payment-completed booking B1 and
the empty patch, the call fails, but with the ValidationError "No fields to
update", which is not the NotEligibleError and does not contain the booking
id "B1" anywhere. -/
theorem updateBooking_ineligible_rejected_counterexample :
    exBookingPaid.paymentStatus = CleaningBookingPaymentStatusEnum.PaymentCompleted
    ∧ (updateBooking [exBookingPaid] "B1" {} "admin" 0).response =
        Except.error "No fields to update"
    ∧ (updateBooking [exBookingPaid] "B1" {} "admin" 0).response ≠
        Except.error ("No active booking found with id: " ++ "B1")
    ∧ (∀ pre post : String, "No fields to update" ≠ pre ++ "B1" ++ post) := by
  refine ⟨by decide, by decide, by decide, fun pre post h => ?_⟩
  have hmem : ('B' : Char) ∈ "No fields to update".data := by
    rw [h]
    simp [String.data_append]
  exact absurd hmem (by decide)

/-- Witness for C1 at a concrete input: the payment-completed booking B1 with
a non-empty patch is rejected with the NotEligibleError and left unchanged. -/
theorem updateBooking_ineligible_rejected_witness :
    updateBooking [exBookingPaid] "B1" { remarks := some "x" } "admin" 0 =
      { response := Except.error ("No active booking found with id: " ++ "B1")
        store := [exBookingPaid], emails := []
        ops := [StoreOp.getOneWhere "B1"] } :=
  (updateBooking_ineligible_rejected [exBookingPaid] "B1"
    { remarks := some "x" } "admin" 0 exBookingPaid (by decide) (by decide)
    (by decide) (by decide) (by decide)).1

/-- Claim C3: for an eligible booking whose bookingStatus is not Initiated,
an updateBooking call whose patch has markAsServed = true fails with the
InvalidTransitionError "Booking status is not eligible for update" and leaves
the store unmodified — no write is issued (the operation trace holds only the
lookup) and no email is sent, even when the patch also carries cleaningDate,
remarks or additionalCharges. -/
theorem updateBooking_served_wrong_state (store : List Booking)
    (bookingId : String) (dto : UpdateCleaningBookingDto)
    (authUserId : String) (now : ℤ) (b : Booking)
    (hnd : (store.map Booking.id).Nodup) (hb : b ∈ store) (hid : b.id = bookingId)
    (hact : b.isActive = true)
    (hnc : b.bookingStatus ≠ .BookingCancelled)
    (hncmp : b.bookingStatus ≠ .BookingCompleted)
    (hnp : b.paymentStatus ≠ .PaymentCompleted)
    (hnotinit : b.bookingStatus ≠ .BookingInitiated)
    (hms : dto.markAsServed = some true) :
    updateBooking store bookingId dto authUserId now =
      { response := Except.error "Booking status is not eligible for update"
        store := store, emails := [], ops := [StoreOp.getOneWhere bookingId] } := by
  have hk : 1 ≤ dto.numKeys :=
    numKeys_pos_of_isSome (Or.inr (Or.inr (Or.inr (by rw [hms]; rfl))))
  rw [updateBooking_found hk (find?_eligible_eq_some hnd hb hid hact hnc hncmp hnp),
    commitPhase_guard (by rw [hms]; rfl) hnotinit]

/-- Witness for C3 at a concrete input: the served booking B1 cannot be marked
served again, even alongside a cleaningDate change, and nothing is written. -/
theorem updateBooking_served_wrong_state_witness :
    updateBooking [exBookingServed] "B1"
      { cleaningDate := some "2024-02-02", markAsServed := some true } "admin" 5 =
      { response := Except.error "Booking status is not eligible for update"
        store := [exBookingServed], emails := []
        ops := [StoreOp.getOneWhere "B1"] } :=
  updateBooking_served_wrong_state [exBookingServed] "B1"
    { cleaningDate := some "2024-02-02", markAsServed := some true } "admin" 5
    exBookingServed (by decide) (by decide) (by decide) (by decide) (by decide)
    (by decide) (by decide) (by decide) (by decide)

/-- Claim C5: for an eligible booking with bookingStatus = Initiated, an
updateBooking call whose patch has markAsServed = true succeeds, stores the
booking with bookingStatus = Served, and dispatches exactly one booking-served
email, addressed to the booking user's email. -/
theorem updateBooking_markAsServed_success (store : List Booking)
    (bookingId : String) (dto : UpdateCleaningBookingDto)
    (authUserId : String) (now : ℤ) (b : Booking)
    (hnd : (store.map Booking.id).Nodup) (hb : b ∈ store) (hid : b.id = bookingId)
    (hact : b.isActive = true)
    (hinit : b.bookingStatus = .BookingInitiated)
    (hnp : b.paymentStatus ≠ .PaymentCompleted)
    (hms : dto.markAsServed = some true) :
    (∃ ub, (updateBooking store bookingId dto authUserId now).response =
        Except.ok ub ∧ ub.bookingStatus = .BookingServed)
    ∧ (∃ b', (updateBooking store bookingId dto authUserId now).store.find?
        (fun x => x.id == bookingId) = some b' ∧
        b'.bookingStatus = .BookingServed)
    ∧ (updateBooking store bookingId dto authUserId now).emails.filter
        EmailEvent.isServedMail =
        [EmailEvent.bookingServedMail b.bookingUserEmail] := by
  subst hid
  have hk : 1 ≤ dto.numKeys :=
    numKeys_pos_of_isSome (Or.inr (Or.inr (Or.inr (by rw [hms]; rfl))))
  have hfind := find?_eligible_eq_some hnd hb rfl hact
    (by rw [hinit]; intro h; cases h) (by rw [hinit]; intro h; cases h) hnp
  rw [updateBooking_found hk hfind, commitPhase_commit (Or.inr hinit)]
  refine ⟨⟨_, rfl, ?_⟩, ⟨_, updateOneById_find?_self _ (find?_id_self hnd hb), ?_⟩,
    ?_⟩
  · simp [hms, truthyBool, applyUpdateQuery]
  · simp [hms, truthyBool, applyUpdateQuery]
  · cases hcd : truthyStr dto.cleaningDate <;>
      simp [hms, truthyBool, hcd, EmailEvent.isServedMail]

/-- Witness for C5 at a concrete input: marking the Initiated booking B1 as
served succeeds, stores it as Served, and sends one served mail to its
owner's address. -/
theorem updateBooking_markAsServed_success_witness :
    (∃ ub, (updateBooking [exBooking] "B1" { markAsServed := some true }
        "admin" 5).response = Except.ok ub ∧
        ub.bookingStatus = CleaningBookingStatusEnum.BookingServed)
    ∧ (∃ b', (updateBooking [exBooking] "B1" { markAsServed := some true }
        "admin" 5).store.find? (fun x => x.id == "B1") = some b' ∧
        b'.bookingStatus = CleaningBookingStatusEnum.BookingServed)
    ∧ (updateBooking [exBooking] "B1" { markAsServed := some true }
        "admin" 5).emails.filter EmailEvent.isServedMail =
        [EmailEvent.bookingServedMail exBooking.bookingUserEmail] :=
  updateBooking_markAsServed_success [exBooking] "B1"
    { markAsServed := some true } "admin" 5 exBooking (by decide) (by decide)
    (by decide) (by decide) (by decide) (by decide) (by decide)

/-- Claim C2 (amended): for every eligible booking and every accepted update
whose patch contains a NON-ZERO additionalCharges value, the returned and the
stored booking both carry
totalAmount = ceil(cleaningPrice + additionalCharges + suppliesCharges - discountAmount),
computed from the stored price components and the patch's additionalCharges.
(When the patch carries additionalCharges = 0 the recompute is skipped; see
the counterexample.) -/
theorem updateBooking_additionalCharges_recompute (store : List Booking)
    (bookingId : String) (dto : UpdateCleaningBookingDto)
    (authUserId : String) (now : ℤ) (b : Booking) (a : ℚ)
    (hnd : (store.map Booking.id).Nodup) (hb : b ∈ store) (hid : b.id = bookingId)
    (hact : b.isActive = true)
    (hnc : b.bookingStatus ≠ .BookingCancelled)
    (hncmp : b.bookingStatus ≠ .BookingCompleted)
    (hnp : b.paymentStatus ≠ .PaymentCompleted)
    (hac : dto.additionalCharges = some a) (ha : a ≠ 0)
    (hms : truthyBool dto.markAsServed = false ∨
      b.bookingStatus = .BookingInitiated) :
    (∃ ub, (updateBooking store bookingId dto authUserId now).response =
        Except.ok ub ∧
        ub.totalAmount = ((Int.ceil (b.cleaningPrice + a + b.suppliesCharges -
          b.discountAmount) : ℤ) : ℚ))
    ∧ (∃ b', (updateBooking store bookingId dto authUserId now).store.find?
        (fun x => x.id == bookingId) = some b' ∧
        b'.totalAmount = ((Int.ceil (b.cleaningPrice + a + b.suppliesCharges -
          b.discountAmount) : ℤ) : ℚ)) := by
  subst hid
  have hk : 1 ≤ dto.numKeys :=
    numKeys_pos_of_isSome (Or.inr (Or.inr (Or.inl (by rw [hac]; rfl))))
  have hfind := find?_eligible_eq_some hnd hb rfl hact hnc hncmp hnp
  rw [updateBooking_found hk hfind, commitPhase_commit hms]
  refine ⟨⟨_, rfl, ?_⟩,
    ⟨_, updateOneById_find?_self _ (find?_id_self hnd hb), ?_⟩⟩ <;>
    cases htb : truthyBool dto.markAsServed <;>
      simp [applyUpdateQuery, buildUpdateQuery, hac, ha, truthyNum, htb]

/-- Counterexample for C2 as stated: the patch {additionalCharges: 0} contains
additionalCharges and is accepted (success response), yet the stored
totalAmount stays at 125 and differs from
ceil(cleaningPrice + 0 + suppliesCharges - discountAmount) = 105, because the
truthiness test skips the recompute for the value 0. -/
theorem updateBooking_additionalCharges_recompute_counterexample :
    responseIsOk (updateBooking [exBooking] "B1"
      { additionalCharges := some 0 } "admin" 1).response = true
    ∧ (updateBooking [exBooking] "B1" { additionalCharges := some 0 }
        "admin" 1).store.map Booking.totalAmount = [125]
    ∧ (125 : ℚ) ≠ ((Int.ceil (exBooking.cleaningPrice + 0 +
        exBooking.suppliesCharges - exBooking.discountAmount) : ℤ) : ℚ) := by
  refine ⟨by decide, by decide, ?_⟩
  simp only [exBooking]
  norm_num

/-- Witness for C2 at a concrete input: additionalCharges = 7 recomputes
totalAmount for booking B1. -/
theorem updateBooking_additionalCharges_recompute_witness :
    (∃ ub, (updateBooking [exBooking] "B1" { additionalCharges := some 7 }
        "admin" 1).response = Except.ok ub ∧
        ub.totalAmount = ((Int.ceil (exBooking.cleaningPrice + 7 +
          exBooking.suppliesCharges - exBooking.discountAmount) : ℤ) : ℚ))
    ∧ (∃ b', (updateBooking [exBooking] "B1" { additionalCharges := some 7 }
        "admin" 1).store.find? (fun x => x.id == "B1") = some b' ∧
        b'.totalAmount = ((Int.ceil (exBooking.cleaningPrice + 7 +
          exBooking.suppliesCharges - exBooking.discountAmount) : ℤ) : ℚ)) :=
  updateBooking_additionalCharges_recompute [exBooking] "B1"
    { additionalCharges := some 7 } "admin" 1 exBooking 7 (by decide) (by decide)
    (by decide) (by decide) (by decide) (by decide) (by decide) (by decide)
    (by decide) (Or.inl (by decide))

/-- Claim C4 (code bug witness): updateBooking is NOT a single atomic
filtered-update against the store.  Its trace holds two separate primitives —
a getOneWhere read followed by an updateOneById write that matches by id only.
With a writer interleaved between them (here: the webhook completing payment
and delivery of B1), the edit still commits with a success response and the
final store holds a booking whose paymentStatus is Completed yet whose remarks
were changed by the edit path, which the atomicity claim says is impossible. -/
theorem updateBooking_not_atomic_race :
    (updateBooking [exBooking] "B1" { remarks := some "edited" } "admin" 1).ops =
      [StoreOp.getOneWhere "B1", StoreOp.updateOneById "B1"]
    ∧ (updateBookingInterleaved [exBooking] exInterference "B1"
        { remarks := some "edited" } "admin" 1).store.map
        (fun x => (x.remarks, x.paymentStatus, x.bookingStatus)) =
      [("edited", CleaningBookingPaymentStatusEnum.PaymentCompleted,
        CleaningBookingStatusEnum.BookingCompleted)]
    ∧ responseIsOk (updateBookingInterleaved [exBooking] exInterference "B1"
        { remarks := some "edited" } "admin" 1).response = true :=
  ⟨by decide, by decide, by decide⟩

theorem getAllPaidBooking_nonadmin_eq (store : List Booking)
    (query : ListCleaningBookingQueryDto) (token : ITokenPayload)
    (hrole : token.userRole ≠ ApplicationUserRoleEnum.ADMIN) :
    getAllPaidBooking store query token =
      { totalRecords :=
          (store.filter (paidBookingMatches (some token.userId))).length
        page := query.Page
        pageSize := query.PageSize
        data := ((store.filter (paidBookingMatches (some token.userId))).drop
          ((query.Page - 1) * query.PageSize)).take query.PageSize } := by
  unfold getAllPaidBooking
  rw [if_pos hrole]

/-- Claim C9: for a non-admin caller, getAllPaidBooking returns only bookings
owned by the caller, and the BookingUserId query value has no effect: two
calls over the same store whose queries agree on Page and PageSize but carry
arbitrary different BookingUserId values return equal responses. -/
theorem getAllPaidBooking_nonadmin_scoped (store : List Booking)
    (q1 q2 : ListCleaningBookingQueryDto) (token : ITokenPayload)
    (hrole : token.userRole ≠ ApplicationUserRoleEnum.ADMIN)
    (hpage : q1.Page = q2.Page) (hsize : q1.PageSize = q2.PageSize) :
    (∀ b ∈ (getAllPaidBooking store q1 token).data,
      b.bookingUser = token.userId)
    ∧ getAllPaidBooking store q1 token = getAllPaidBooking store q2 token := by
  constructor
  · intro b hbmem
    rw [getAllPaidBooking_nonadmin_eq store q1 token hrole] at hbmem
    have hb2 : b ∈ store.filter (paidBookingMatches (some token.userId)) :=
      List.mem_of_mem_drop (List.mem_of_mem_take hbmem)
    have hmatch := (List.mem_filter.mp hb2).2
    simp only [paidBookingMatches, Bool.and_eq_true, beq_iff_eq] at hmatch
    exact hmatch.2
  · rw [getAllPaidBooking_nonadmin_eq store q1 token hrole,
      getAllPaidBooking_nonadmin_eq store q2 token hrole, hpage, hsize]

/-- Witness for C9 at a concrete input: for the non-admin caller U1, the
BookingUserId value "U2" is ignored and only U1's bookings are returned. -/
theorem getAllPaidBooking_nonadmin_scoped_witness :
    (∀ b ∈ (getAllPaidBooking
        [exCompletedBooking "B1" "U1", exCompletedBooking "B2" "U2"]
        { BookingUserId := "U2" }
        { userId := "U1", userRole := .USER }).data,
      b.bookingUser = "U1")
    ∧ getAllPaidBooking
        [exCompletedBooking "B1" "U1", exCompletedBooking "B2" "U2"]
        { BookingUserId := "U2" } { userId := "U1", userRole := .USER } =
      getAllPaidBooking
        [exCompletedBooking "B1" "U1", exCompletedBooking "B2" "U2"]
        { BookingUserId := "" } { userId := "U1", userRole := .USER } :=
  getAllPaidBooking_nonadmin_scoped
    [exCompletedBooking "B1" "U1", exCompletedBooking "B2" "U2"]
    { BookingUserId := "U2" } { BookingUserId := "" }
    { userId := "U1", userRole := .USER } (by decide) rfl rfl

/-- Claim C7: getTotalBookingEarnings returns exactly the sum of totalAmount
over the bookings with bookingStatus = Completed and paymentStatus =
Completed; any two stores with the same completed/paid sublist — in
particular stores differing only in bookings outside that set or in their
fields — yield the same total. -/
theorem getTotalBookingEarnings_spec (store : List Booking) :
    (getTotalBookingEarnings store =
      ((store.filter completedPaidFilter).map Booking.totalAmount).sum)
    ∧ (∀ s2 : List Booking,
        store.filter completedPaidFilter = s2.filter completedPaidFilter →
        getTotalBookingEarnings store = getTotalBookingEarnings s2) := by
  have key : ∀ s : List Booking, getTotalBookingEarnings s =
      ((s.filter completedPaidFilter).map Booking.totalAmount).sum := by
    intro s
    have hperm : List.Perm
        ((List.insertionSort
          (fun a b : Booking => b.createdAt ≤ a.createdAt) s).filter
            completedPaidFilter)
        (s.filter completedPaidFilter) :=
      (List.perm_insertionSort _ s).filter _
    have hsum := (hperm.map Booking.totalAmount).sum_eq
    unfold getTotalBookingEarnings
    exact hsum
  exact ⟨key store, fun s2 h => by rw [key store, key s2, h]⟩

/-- Witness for C7 at a concrete input: the earnings over a store with one
completed/paid booking and one pending booking equal the completed booking's
totalAmount, and replacing the pending booking by a different non-qualifying
booking leaves the total unchanged. -/
theorem getTotalBookingEarnings_spec_witness :
    (getTotalBookingEarnings [exCompletedBooking "B1" "U1", exBooking] =
      (([exCompletedBooking "B1" "U1", exBooking].filter
        completedPaidFilter).map Booking.totalAmount).sum)
    ∧ getTotalBookingEarnings [exCompletedBooking "B1" "U1", exBooking] =
      getTotalBookingEarnings [exCompletedBooking "B1" "U1", exBookingPaid] :=
  ⟨(getTotalBookingEarnings_spec [exCompletedBooking "B1" "U1", exBooking]).1,
    (getTotalBookingEarnings_spec [exCompletedBooking "B1" "U1", exBooking]).2
      [exCompletedBooking "B1" "U1", exBookingPaid] (by decide)⟩

/-! Lemmas about the top-users aggregation pipeline. -/

theorem findTopUsersByBooking_eq (bookings : List Booking)
    (users : List ApplicationUser) :
    findTopUsersByBooking bookings users =
      ((List.insertionSort (fun a b : BookingUserProjection × Nat => b.2 ≤ a.2)
        ((dedupFirst ((bookings.filter completedPaidFilter).flatMap
          (lookupActiveBookingUser users))).map (fun k =>
            (k, ((bookings.filter completedPaidFilter).flatMap
              (lookupActiveBookingUser users)).count k)))).take 10).map
        (fun kc => { bookingUser := kc.1, totalBookingCount := kc.2 }) := rfl

theorem mem_dedupFirst {α : Type} [DecidableEq α] {a : α} {l : List α} :
    a ∈ dedupFirst l ↔ a ∈ l := by
  induction l with
  | nil => exact Iff.rfl
  | cons b rest ih =>
      by_cases hab : a = b
      · subst hab
        simp [dedupFirst]
      · simp [dedupFirst, List.mem_filter, hab, ih]

theorem filter_users_active_self {users : List ApplicationUser}
    {u : ApplicationUser} (hnd : (users.map ApplicationUser.id).Nodup)
    (hu : u ∈ users) (hact : u.isActive = true) :
    users.filter (fun x => x.isActive && x.id == u.id) = [u] := by
  induction users with
  | nil => cases hu
  | cons a rest ih =>
      rw [List.map_cons, List.nodup_cons] at hnd
      rcases List.mem_cons.mp hu with rfl | hur
      · rw [List.filter_cons, if_pos (by simp [hact])]
        have hnil : rest.filter (fun x => x.isActive && x.id == u.id) = [] := by
          rw [List.filter_eq_nil_iff]
          intro x hx hpx
          simp only [Bool.and_eq_true, beq_iff_eq] at hpx
          exact hnd.1 (hpx.2 ▸ List.mem_map_of_mem ApplicationUser.id hx)
        rw [hnil]
      · have hane : a.id ≠ u.id :=
          fun h => hnd.1 (h ▸ List.mem_map_of_mem ApplicationUser.id hur)
        rw [List.filter_cons, if_neg (by simp [hane]), ih hnd.2 hur]

theorem count_proj_lookup {users : List ApplicationUser} {u : ApplicationUser}
    (hnd : (users.map ApplicationUser.id).Nodup) (hu : u ∈ users)
    (hact : u.isActive = true) (b : Booking) :
    (lookupActiveBookingUser users b).count (projectBookingUser u) =
      if (b.bookingUser == u.id) = true then 1 else 0 := by
  cases hbu : (b.bookingUser == u.id) with
  | true =>
      have hb : b.bookingUser = u.id := by simpa using hbu
      rw [if_pos rfl]
      unfold lookupActiveBookingUser
      rw [hb, filter_users_active_self hnd hu hact]
      simp
  | false =>
      rw [if_neg (by simp [hbu])]
      rw [List.count_eq_zero]
      intro hmem
      unfold lookupActiveBookingUser at hmem
      rcases List.mem_map.mp hmem with ⟨x, hxf, hproj⟩
      have hxid : x.id = u.id := congrArg BookingUserProjection.id hproj
      have hxmatch := (List.mem_filter.mp hxf).2
      simp only [Bool.and_eq_true, beq_iff_eq] at hxmatch
      have hbu2 : (b.bookingUser == u.id) = true :=
        beq_iff_eq.mpr (hxmatch.2.symm.trans hxid)
      rw [hbu2] at hbu
      cases hbu

theorem count_flatMap_lookup {users : List ApplicationUser}
    {u : ApplicationUser} (hnd : (users.map ApplicationUser.id).Nodup)
    (hu : u ∈ users) (hact : u.isActive = true) (bks : List Booking) :
    ((bks.flatMap (lookupActiveBookingUser users)).count
      (projectBookingUser u)) =
      (bks.filter (fun b => b.bookingUser == u.id)).length := by
  induction bks with
  | nil => rfl
  | cons b rest ih =>
      rw [List.flatMap_cons, List.count_append,
        count_proj_lookup hnd hu hact b, ih, List.filter_cons]
      cases hbu : (b.bookingUser == u.id) with
      | true => simp [Nat.add_comm]
      | false => simp

theorem findTop_mem_spec {bookings : List Booking}
    {users : List ApplicationUser}
    (hnd : (users.map ApplicationUser.id).Nodup)
    {e : TopBookingUserEntry} (he : e ∈ findTopUsersByBooking bookings users) :
    ∃ u ∈ users, u.isActive = true ∧ e.bookingUser = projectBookingUser u ∧
      e.totalBookingCount = (bookings.filter (fun b =>
        completedPaidFilter b && b.bookingUser == u.id)).length := by
  rw [findTopUsersByBooking_eq] at he
  rcases List.mem_map.mp he with ⟨kc, hkc, rfl⟩
  have hkc2 := List.mem_of_mem_take hkc
  rw [(List.perm_insertionSort _ _).mem_iff] at hkc2
  rcases List.mem_map.mp hkc2 with ⟨k, hk, rfl⟩
  have hkU : k ∈ (bookings.filter completedPaidFilter).flatMap
      (lookupActiveBookingUser users) := mem_dedupFirst.mp hk
  rcases List.mem_flatMap.mp hkU with ⟨b, _, hkb⟩
  unfold lookupActiveBookingUser at hkb
  rcases List.mem_map.mp hkb with ⟨u, huf, rfl⟩
  have humem : u ∈ users := (List.mem_filter.mp huf).1
  have hup := (List.mem_filter.mp huf).2
  simp only [Bool.and_eq_true] at hup
  refine ⟨u, humem, hup.1, rfl, ?_⟩
  show ((bookings.filter completedPaidFilter).flatMap
      (lookupActiveBookingUser users)).count (projectBookingUser u) = _
  rw [count_flatMap_lookup hnd humem hup.1, List.filter_filter]
  congr 1
  exact List.filter_congr (fun x _ => Bool.and_comm _ _)

theorem findTop_sorted (bookings : List Booking)
    (users : List ApplicationUser) :
    (findTopUsersByBooking bookings users).Pairwise
      (fun x y : TopBookingUserEntry =>
        y.totalBookingCount ≤ x.totalBookingCount) := by
  rw [findTopUsersByBooking_eq]
  apply List.pairwise_map.mpr
  apply List.Pairwise.sublist (List.take_sublist _ _)
  exact List.sorted_insertionSort
    (fun a b : BookingUserProjection × Nat => b.2 ≤ a.2) _

theorem findTop_length_le (bookings : List Booking)
    (users : List ApplicationUser) :
    (findTopUsersByBooking bookings users).length ≤ 10 := by
  rw [findTopUsersByBooking_eq, List.length_map, List.length_take]
  exact min_le_left _ _

theorem lookupActiveBookingUser_eq_nil {users : List ApplicationUser}
    {b : Booking} (h : hasActiveOwner users b = false) :
    lookupActiveBookingUser users b = [] := by
  simp only [hasActiveOwner, List.any_eq_false] at h
  unfold lookupActiveBookingUser
  rw [List.filter_eq_nil_iff.mpr h, List.map_nil]

theorem flatMap_lookup_filter_owner (users : List ApplicationUser)
    (bookings : List Booking) :
    (bookings.filter completedPaidFilter).flatMap
      (lookupActiveBookingUser users) =
      ((bookings.filter (hasActiveOwner users)).filter
        completedPaidFilter).flatMap (lookupActiveBookingUser users) := by
  induction bookings with
  | nil => rfl
  | cons b rest ih =>
      cases hcp : completedPaidFilter b with
      | false =>
          cases hao : hasActiveOwner users b with
          | false => simpa [List.filter_cons, hcp, hao] using ih
          | true => simpa [List.filter_cons, hcp, hao] using ih
      | true =>
          cases hao : hasActiveOwner users b with
          | true =>
              simp only [List.filter_cons, hcp, hao, if_pos, List.flatMap_cons]
              rw [ih]
          | false =>
              simp only [List.filter_cons, hcp, hao, if_pos, List.flatMap_cons,
                lookupActiveBookingUser_eq_nil hao, List.nil_append]
              simpa [List.filter_cons, hao] using ih

theorem findTop_filter_activeOwner (bookings : List Booking)
    (users : List ApplicationUser) :
    findTopUsersByBooking bookings users =
      findTopUsersByBooking (bookings.filter (hasActiveOwner users)) users := by
  rw [findTopUsersByBooking_eq, findTopUsersByBooking_eq,
    ← flatMap_lookup_filter_owner users bookings]

/-- Claim C8 (amended): findTopUsersByBooking groups the completed-and-paid
bookings whose owning user record exists and is active by the projected
owner (email, fullName, profilePicture, dateJoined and the user id — not only
email/name/avatar), counts each group, sorts descending by count, and returns
at most 10 entries of (owner projection, count): each entry's count is the
number of completed/paid bookings owned by that active user. -/
theorem findTopUsersByBooking_spec (bookings : List Booking)
    (users : List ApplicationUser)
    (hnd : (users.map ApplicationUser.id).Nodup) :
    (findTopUsersByBooking bookings users).length ≤ 10
    ∧ (findTopUsersByBooking bookings users).Pairwise
        (fun x y => y.totalBookingCount ≤ x.totalBookingCount)
    ∧ ∀ e ∈ findTopUsersByBooking bookings users,
        ∃ u ∈ users, u.isActive = true ∧ e.bookingUser = projectBookingUser u ∧
          e.totalBookingCount = (bookings.filter (fun b =>
            completedPaidFilter b && b.bookingUser == u.id)).length :=
  ⟨findTop_length_le bookings users, findTop_sorted bookings users,
    fun _ he => findTop_mem_spec hnd he⟩

/-- Counterexample for C8 as stated: the report does not carry only a
(email, name, avatar) projection — it also depends on the owner's dateJoined
(two stores equal except for U1's dateJoined produce different reports) — and
it does not group all completed/paid bookings: the completed, paid booking of
an inactive owner is dropped instead of counted. -/
theorem findTopUsersByBooking_spec_counterexample :
    findTopUsersByBooking [exCompletedBooking "B1" "U1"] [exUser] ≠
      findTopUsersByBooking [exCompletedBooking "B1" "U1"]
        [{ exUser with dateJoined := 1 }]
    ∧ completedPaidFilter (exCompletedBooking "B1" "U1") = true
    ∧ findTopUsersByBooking [exCompletedBooking "B1" "U1"]
        [{ exUser with isActive := false }] = [] :=
  ⟨by decide, by decide, by decide⟩

/-- Witness for C8 at a concrete input: two users, U2 with two completed
bookings and U1 with one. -/
theorem findTopUsersByBooking_spec_witness :
    (findTopUsersByBooking [exCompletedBooking "B1" "U1",
      exCompletedBooking "B2" "U2", exCompletedBooking "B3" "U2"]
      [exUser, exUser2]).length ≤ 10
    ∧ (findTopUsersByBooking [exCompletedBooking "B1" "U1",
        exCompletedBooking "B2" "U2", exCompletedBooking "B3" "U2"]
        [exUser, exUser2]).Pairwise
        (fun x y => y.totalBookingCount ≤ x.totalBookingCount)
    ∧ ∀ e ∈ findTopUsersByBooking [exCompletedBooking "B1" "U1",
        exCompletedBooking "B2" "U2", exCompletedBooking "B3" "U2"]
        [exUser, exUser2],
        ∃ u ∈ [exUser, exUser2], u.isActive = true ∧
          e.bookingUser = projectBookingUser u ∧
          e.totalBookingCount = ([exCompletedBooking "B1" "U1",
            exCompletedBooking "B2" "U2", exCompletedBooking "B3" "U2"].filter
            (fun b => completedPaidFilter b && b.bookingUser == u.id)).length :=
  findTopUsersByBooking_spec [exCompletedBooking "B1" "U1",
    exCompletedBooking "B2" "U2", exCompletedBooking "B3" "U2"]
    [exUser, exUser2] (by decide)

/-- Claim C10: findTopUsersByBooking silently excludes every booking whose
owning user record is inactive or missing — the report over any store equals
the report over the store restricted to bookings with an existing active
owner — and no report entry ever carries the id of an inactive user, so a
deactivated user disappears from the report entirely. -/
theorem findTopUsersByBooking_excludes_inactive (bookings : List Booking)
    (users : List ApplicationUser)
    (hnd : (users.map ApplicationUser.id).Nodup) :
    findTopUsersByBooking bookings users =
      findTopUsersByBooking (bookings.filter (hasActiveOwner users)) users
    ∧ ∀ u ∈ users, u.isActive = false →
        ∀ e ∈ findTopUsersByBooking bookings users,
          e.bookingUser.id ≠ u.id := by
  refine ⟨findTop_filter_activeOwner bookings users,
    fun u hu hinact e he hid => ?_⟩
  rcases findTop_mem_spec hnd he with ⟨u', hu', hact', hproj, _⟩
  have hids : u'.id = u.id := by
    rw [← hid, hproj]
    rfl
  have huu : u' = u := List.inj_on_of_nodup_map hnd hu' hu hids
  rw [huu, hinact] at hact'
  cases hact'

/-- Witness for C10 at a concrete input: with U1 deactivated, U1's completed,
paid booking contributes nothing and U1 appears in no entry. -/
theorem findTopUsersByBooking_excludes_inactive_witness :
    findTopUsersByBooking [exCompletedBooking "B1" "U1"]
      [{ exUser with isActive := false }] =
      findTopUsersByBooking ([exCompletedBooking "B1" "U1"].filter
        (hasActiveOwner [{ exUser with isActive := false }]))
        [{ exUser with isActive := false }]
    ∧ ∀ u ∈ [{ exUser with isActive := false }], u.isActive = false →
        ∀ e ∈ findTopUsersByBooking [exCompletedBooking "B1" "U1"]
          [{ exUser with isActive := false }],
          e.bookingUser.id ≠ u.id :=
  findTopUsersByBooking_excludes_inactive [exCompletedBooking "B1" "U1"]
    [{ exUser with isActive := false }] (by decide)

end SparklingHome
